import Mathlib

/-!
Shallow embedding of `src/frontend/js/api.js` (the `EchosenseAPI` browser
HTTP client) and proofs about its observable behaviour.

The client is a thin wrapper around `fetch`.  We model:
  * JSON values (`Json`) as the result of `response.json()`;
  * an HTTP response as seen by the client (`Response`): its status, its
    body's parse result, and the message of the parse exception when the
    body is not valid JSON;
  * the outcome of one transport round trip (`HttpOutcome`): either a
    response or a thrown network error;
  * the request each operation issues (`Request`) and the value/exception
    each operation produces (`FetchResult`), together with the diagnostic
    log, as a `FetchOutput`.

JavaScript details that matter and are modelled faithfully:
  * `{'Content-Type': 'application/json', ...options.headers}` is object
    spread: later keys override earlier ones (`mergeHeaders`);
  * `new Error(x)` carries `String(x)` as its message (`Json.toJSString`);
  * `error.detail || \x7bHTTP status\x7d` takes the fallback whenever
    `detail` is falsy (absent, `""`, `0`, `false`, `null`), and accessing
    `.detail` on `null` throws a `TypeError` (`getDetail`);
  * `response.json().catch(() => ({detail: 'Unknown error'}))` replaces an
    unparseable error body by that object (`'Upload failed'` in
    `uploadAudio`);
  * the `catch` block logs and rethrows the very same error.
-/

namespace Echosense

/-- JSON values, the possible results of `response.json()`. -/
inductive Json where
  | null : Json
  | bool (b : Bool) : Json
  | num (n : Int) : Json
  | str (s : String) : Json
  | arr (elems : List Json) : Json
  | obj (fields : List (String × Json)) : Json

/-- JavaScript truthiness of a JSON value, as tested by `x || y`. -/
def Json.truthy : Json → Bool
  | .null => false
  | .bool b => b
  | .num n => n != 0
  | .str s => s != ""
  | .arr _ => true
  | .obj _ => true

mutual

/-- `String(x)` for a JSON value `x`: the message that `new Error(x)`
carries.  Arrays stringify as their elements joined by commas with `null`
elements rendered empty; plain objects stringify as `[object Object]`. -/
def Json.toJSString : Json → String
  | .null => "null"
  | .bool true => "true"
  | .bool false => "false"
  | .num n => toString n
  | .str s => s
  | .arr elems => jsArrayString elems
  | .obj _ => "[object Object]"

/-- `Array.prototype.toString`: elements joined by `,`, `null` as empty. -/
def jsArrayString : List Json → String
  | [] => ""
  | [Json.null] => ""
  | [e] => Json.toJSString e
  | Json.null :: rest => "," ++ jsArrayString rest
  | e :: rest => Json.toJSString e ++ "," ++ jsArrayString rest

end

/-- First binding of `key` in a parsed JSON object's field list (parsed
objects carry each key at most once). -/
def lookupField : List (String × Json) → String → Option Json
  | [], _ => none
  | (k, v) :: rest, key => if k = key then some v else lookupField rest key

/-- Result of the property access `error.detail` in JavaScript: a value,
`undefined` (modelled `Option.none`), or a thrown `TypeError`. -/
inductive AccessResult where
  | ok (v : Option Json) : AccessResult
  | typeError (msg : String) : AccessResult

/-- `error.detail` on the parsed error body: fields of an object, absent on
other non-null values, a `TypeError` on `null`. -/
def getDetail : Json → AccessResult
  | .null => .typeError "Cannot read properties of null (reading 'detail')"
  | .obj fields => .ok (lookupField fields "detail")
  | _ => .ok none

/-- An HTTP response as the client observes it: the status code, the result
of parsing the body as JSON (`none` when the body is not valid JSON), and
the message of the parse exception thrown by `response.json()` in that
case. -/
structure Response where
  status : Nat
  json : Option Json
  parseErrMsg : String

/-- `response.ok` per the Fetch standard: status in the 2xx range. -/
def Response.ok (r : Response) : Bool := 200 ≤ r.status && r.status < 300

/-- Outcome of one `fetch` round trip: a response, or a thrown network
error carrying a message. -/
inductive HttpOutcome where
  | response (resp : Response) : HttpOutcome
  | networkError (errMsg : String) : HttpOutcome

/-- What an operation produces: the parsed JSON body on success, or a
raised `Error` carrying a message. -/
inductive FetchResult where
  | success (body : Json) : FetchResult
  | failure (message : String) : FetchResult

/-- The response-handling block shared in shape by `_fetch` and
`uploadAudio` (they differ only in `fallbackDetail`, the `detail` value
substituted when an error body fails to parse: `"Unknown error"` in
`_fetch`, `"Upload failed"` in `uploadAudio`):

```js
if (!response.ok) \x7b
  const error = await response.json().catch(() => (\x7b detail: FALLBACK \x7d));
  throw new Error(error.detail || \x60HTTP $\x7bresponse.status\x7d\x60);
\x7d
return await response.json();
```
-/
def handleResponseCore (fallbackDetail : String) (resp : Response) : FetchResult :=
  if !resp.ok then
    let errObj : Json :=
      match resp.json with
      | some j => j
      | none => Json.obj [("detail", Json.str fallbackDetail)]
    match getDetail errObj with
    | .typeError msg => .failure msg
    | .ok (some d) =>
        if d.truthy then .failure d.toJSString
        else .failure ("HTTP " ++ toString resp.status)
    | .ok none => .failure ("HTTP " ++ toString resp.status)
  else
    match resp.json with
    | some j => .success j
    | none => .failure resp.parseErrMsg

/-- The body of `_fetch`'s `try` block: a thrown network error propagates,
a response goes through the shared handling with fallback detail
`"Unknown error"`. -/
def fetchAttempt (outcome : HttpOutcome) : FetchResult :=
  match outcome with
  | .networkError msg => .failure msg
  | .response resp => handleResponseCore "Unknown error" resp

/-- The body of `uploadAudio`'s `try` block: identical handling except the
fallback detail is `"Upload failed"`. -/
def uploadAttempt (outcome : HttpOutcome) : FetchResult :=
  match outcome with
  | .networkError msg => .failure msg
  | .response resp => handleResponseCore "Upload failed" resp

/-- The module-level constant `API_BASE_URL = 'http://localhost:8000'`. -/
def API_BASE_URL : String := "http://localhost:8000"

/-- The client's state: `constructor(baseUrl = API_BASE_URL)` stores the
one field `this.baseUrl`.  No method assigns to it afterwards, so the
embedding's operations take the state and return none. -/
structure ClientState where
  baseUrl : String

/-- `new EchosenseAPI(baseUrl)`. -/
def EchosenseAPI.mk (baseUrl : String) : ClientState := ⟨baseUrl⟩

/-- `new EchosenseAPI()`: the constructor's default argument applies. -/
def EchosenseAPI.mkDefault : ClientState := EchosenseAPI.mk API_BASE_URL

/-- The body a request carries. -/
inductive RequestBody where
  | noBody : RequestBody
  | multipart (fields : List (String × String)) : RequestBody

/-- An outbound HTTP request as handed to `fetch`: the URL, the method,
the headers object (in insertion order, keys unique), and the body.
`FormData` field values are modelled as the opaque file argument. -/
structure Request where
  url : String
  method : String
  headers : List (String × String)
  body : RequestBody

/-- Options passed to `_fetch` (the used subset of `fetch` init options).
`_fetch(endpoint)` with no options argument corresponds to
`⟨"GET", []⟩` (the spread of `\x7b\x7d` adds nothing; `fetch`'s method
defaults to GET). -/
structure FetchOptions where
  method : String
  headers : List (String × String)

/-- The empty options object `\x7b\x7d`, `_fetch`'s default argument. -/
def FetchOptions.defaultOpts : FetchOptions := ⟨"GET", []⟩

/-- JavaScript object-literal key update: assigning `k` replaces an
existing entry in place, otherwise appends. -/
def setField (obj : List (String × String)) (k v : String) :
    List (String × String) :=
  if obj.any (fun p => p.1 = k) then
    obj.map (fun p => if p.1 = k then (k, v) else p)
  else obj ++ [(k, v)]

/-- The headers object `\x7b'Content-Type': 'application/json',
...options.headers\x7d`: the default entry first, then each caller entry
spread over it, later keys overriding earlier ones. -/
def mergeHeaders (callerHeaders : List (String × String)) :
    List (String × String) :=
  callerHeaders.foldl (fun acc kv => setField acc kv.1 kv.2)
    [("Content-Type", "application/json")]

/-- Header lookup in the built headers object. -/
def getHeader (headers : List (String × String)) (k : String) :
    Option String :=
  (headers.find? (fun p => p.1 = k)).map (fun p => p.2)

/-- What one invocation of an operation observably does: the requests it
hands to the transport (in order), the `console.error` log entries, and
the returned value or raised error. -/
structure FetchOutput where
  requests : List Request
  log : List String
  result : FetchResult

/-- `_fetch(endpoint, options)` given the transport's `outcome`: builds
the request for `baseUrl + endpoint` with the merged headers, runs the
`try` body, and on failure logs `API Error [endpoint]:` and rethrows the
same error. -/
def EchosenseAPI.fetchImpl (c : ClientState) (endpoint : String)
    (opts : FetchOptions) (outcome : HttpOutcome) : FetchOutput :=
  let req : Request :=
    ⟨c.baseUrl ++ endpoint, opts.method, mergeHeaders opts.headers,
      RequestBody.noBody⟩
  match fetchAttempt outcome with
  | .success j => ⟨[req], [], .success j⟩
  | .failure m =>
      ⟨[req], ["API Error [" ++ endpoint ++ "]: " ++ m], .failure m⟩

/-- `uploadAudio(file)`: one POST of a `FormData` holding the single field
`file`, to `baseUrl + '/api/upload/audio'`, with no headers given (the
transport sets the multipart boundary); failures are logged as
`Upload Error:` and rethrown. -/
def EchosenseAPI.uploadAudio (c : ClientState) (file : String)
    (outcome : HttpOutcome) : FetchOutput :=
  let req : Request :=
    ⟨c.baseUrl ++ "/api/upload/audio", "POST", [],
      RequestBody.multipart [("file", file)]⟩
  match uploadAttempt outcome with
  | .success j => ⟨[req], [], .success j⟩
  | .failure m => ⟨[req], ["Upload Error: " ++ m], .failure m⟩

/-- `getProcessingStatus(callId)`. -/
def EchosenseAPI.getProcessingStatus (c : ClientState) (callId : String)
    (outcome : HttpOutcome) : FetchOutput :=
  EchosenseAPI.fetchImpl c ("/api/processing/status/" ++ callId)
    FetchOptions.defaultOpts outcome

/-- `getTranscript(callId)`. -/
def EchosenseAPI.getTranscript (c : ClientState) (callId : String)
    (outcome : HttpOutcome) : FetchOutput :=
  EchosenseAPI.fetchImpl c ("/api/processing/transcript/" ++ callId)
    FetchOptions.defaultOpts outcome

/-- `getQualityScore(callId)`. -/
def EchosenseAPI.getQualityScore (c : ClientState) (callId : String)
    (outcome : HttpOutcome) : FetchOutput :=
  EchosenseAPI.fetchImpl c ("/api/processing/quality/" ++ callId)
    FetchOptions.defaultOpts outcome

/-- `getComplianceFlags(callId)`. -/
def EchosenseAPI.getComplianceFlags (c : ClientState) (callId : String)
    (outcome : HttpOutcome) : FetchOutput :=
  EchosenseAPI.fetchImpl c ("/api/processing/compliance/" ++ callId)
    FetchOptions.defaultOpts outcome

/-- `getFullReport(callId)`. -/
def EchosenseAPI.getFullReport (c : ClientState) (callId : String)
    (outcome : HttpOutcome) : FetchOutput :=
  EchosenseAPI.fetchImpl c ("/api/processing/full-report/" ++ callId)
    FetchOptions.defaultOpts outcome

/-- `getDashboardStats(days)`; `$\x7bdays\x7d` stringifies the number. -/
def EchosenseAPI.getDashboardStats (c : ClientState) (days : Int)
    (outcome : HttpOutcome) : FetchOutput :=
  EchosenseAPI.fetchImpl c ("/api/analytics/dashboard?days=" ++ toString days)
    FetchOptions.defaultOpts outcome

/-- `getDashboardStats()`: the default parameter `days = 7` applies. -/
def EchosenseAPI.getDashboardStatsNoArg (c : ClientState)
    (outcome : HttpOutcome) : FetchOutput :=
  EchosenseAPI.getDashboardStats c 7 outcome

/-- `getRecentCalls(limit)`. -/
def EchosenseAPI.getRecentCalls (c : ClientState) (lim : Int)
    (outcome : HttpOutcome) : FetchOutput :=
  EchosenseAPI.fetchImpl c ("/api/analytics/recent-calls?limit=" ++ toString lim)
    FetchOptions.defaultOpts outcome

/-- `getRecentCalls()`: the default parameter `limit = 10` applies. -/
def EchosenseAPI.getRecentCallsNoArg (c : ClientState)
    (outcome : HttpOutcome) : FetchOutput :=
  EchosenseAPI.getRecentCalls c 10 outcome

/-- `getQualityTrends(days)`. -/
def EchosenseAPI.getQualityTrends (c : ClientState) (days : Int)
    (outcome : HttpOutcome) : FetchOutput :=
  EchosenseAPI.fetchImpl c ("/api/analytics/quality-trends?days=" ++ toString days)
    FetchOptions.defaultOpts outcome

/-- `getQualityTrends()`: the default parameter `days = 30` applies. -/
def EchosenseAPI.getQualityTrendsNoArg (c : ClientState)
    (outcome : HttpOutcome) : FetchOutput :=
  EchosenseAPI.getQualityTrends c 30 outcome

/-- `deleteCall(callId)`: `_fetch` with `\x7b method: 'DELETE' \x7d`. -/
def EchosenseAPI.deleteCall (c : ClientState) (callId : String)
    (outcome : HttpOutcome) : FetchOutput :=
  EchosenseAPI.fetchImpl c ("/api/calls/" ++ callId) ⟨"DELETE", []⟩ outcome

/-- `getComplianceSummary(days)`. -/
def EchosenseAPI.getComplianceSummary (c : ClientState) (days : Int)
    (outcome : HttpOutcome) : FetchOutput :=
  EchosenseAPI.fetchImpl c
    ("/api/analytics/compliance-summary?days=" ++ toString days)
    FetchOptions.defaultOpts outcome

/-- `getComplianceSummary()`: the default parameter `days = 7` applies. -/
def EchosenseAPI.getComplianceSummaryNoArg (c : ClientState)
    (outcome : HttpOutcome) : FetchOutput :=
  EchosenseAPI.getComplianceSummary c 7 outcome

/-- All requests issued by one invocation of each non-upload public
operation, in source order of the class. -/
def nonUploadRequests (c : ClientState) (callId : String) (n : Int)
    (outcome : HttpOutcome) : List Request :=
  (EchosenseAPI.getProcessingStatus c callId outcome).requests
    ++ (EchosenseAPI.getTranscript c callId outcome).requests
    ++ (EchosenseAPI.getQualityScore c callId outcome).requests
    ++ (EchosenseAPI.getComplianceFlags c callId outcome).requests
    ++ (EchosenseAPI.getFullReport c callId outcome).requests
    ++ (EchosenseAPI.getDashboardStats c n outcome).requests
    ++ (EchosenseAPI.getRecentCalls c n outcome).requests
    ++ (EchosenseAPI.getQualityTrends c n outcome).requests
    ++ (EchosenseAPI.deleteCall c callId outcome).requests
    ++ (EchosenseAPI.getComplianceSummary c n outcome).requests

/-- Requests of every public operation: the non-upload ones plus the
upload. -/
def allRequests (c : ClientState) (callId file : String) (n : Int)
    (outcome : HttpOutcome) : List Request :=
  nonUploadRequests c callId n outcome
    ++ (EchosenseAPI.uploadAudio c file outcome).requests

/-! ### Helper lemmas -/

theorem fetchImpl_requests (c : ClientState) (endpoint : String)
    (opts : FetchOptions) (outcome : HttpOutcome) :
    (EchosenseAPI.fetchImpl c endpoint opts outcome).requests
      = [⟨c.baseUrl ++ endpoint, opts.method, mergeHeaders opts.headers,
          RequestBody.noBody⟩] := by
  cases h : fetchAttempt outcome <;> simp [EchosenseAPI.fetchImpl, h]

theorem fetchImpl_result (c : ClientState) (endpoint : String)
    (opts : FetchOptions) (outcome : HttpOutcome) :
    (EchosenseAPI.fetchImpl c endpoint opts outcome).result
      = fetchAttempt outcome := by
  cases h : fetchAttempt outcome <;> simp [EchosenseAPI.fetchImpl, h]

theorem fetchImpl_log (c : ClientState) (endpoint : String)
    (opts : FetchOptions) (outcome : HttpOutcome) (m : String)
    (h : fetchAttempt outcome = FetchResult.failure m) :
    (EchosenseAPI.fetchImpl c endpoint opts outcome).log
      = ["API Error [" ++ endpoint ++ "]: " ++ m] := by
  simp [EchosenseAPI.fetchImpl, h]

theorem uploadAudio_requests (c : ClientState) (file : String)
    (outcome : HttpOutcome) :
    (EchosenseAPI.uploadAudio c file outcome).requests
      = [⟨c.baseUrl ++ "/api/upload/audio", "POST", [],
          RequestBody.multipart [("file", file)]⟩] := by
  cases h : uploadAttempt outcome <;> simp [EchosenseAPI.uploadAudio, h]

theorem uploadAudio_result (c : ClientState) (file : String)
    (outcome : HttpOutcome) :
    (EchosenseAPI.uploadAudio c file outcome).result
      = uploadAttempt outcome := by
  cases h : uploadAttempt outcome <;> simp [EchosenseAPI.uploadAudio, h]

/-- The shared response handling does not depend on the fallback detail
whenever the response is a success or its body parses. -/
theorem handleResponseCore_congr (fb1 fb2 : String) (resp : Response)
    (h : resp.ok = true ∨ resp.json ≠ none) :
    handleResponseCore fb1 resp = handleResponseCore fb2 resp := by
  unfold handleResponseCore
  rcases h with h | h
  · simp [h]
  · cases hj : resp.json with
    | none => exact absurd hj h
    | some j => simp [hj]

theorem getHeader_cons (p : String × String) (l : List (String × String))
    (key : String) :
    getHeader (p :: l) key
      = if p.1 = key then some p.2 else getHeader l key := by
  by_cases h : p.1 = key <;> simp [getHeader, List.find?, h]

theorem getHeader_append (l1 l2 : List (String × String)) (key : String) :
    getHeader (l1 ++ l2) key
      = match getHeader l1 key with
        | some v => some v
        | none => getHeader l2 key := by
  induction l1 with
  | nil => simp [getHeader]
  | cons p rest ih =>
      rw [List.cons_append, getHeader_cons, getHeader_cons]
      by_cases h : p.1 = key <;> simp [h, ih]

theorem getHeader_map_update (k v key : String) (h : k ≠ key)
    (acc : List (String × String)) :
    getHeader (acc.map (fun p => if p.1 = k then (k, v) else p)) key
      = getHeader acc key := by
  induction acc with
  | nil => rfl
  | cons p rest ih =>
      by_cases hp : p.1 = k <;>
        simp [List.map_cons, getHeader_cons, hp, h, ih]

theorem getHeader_append_single_ne (acc : List (String × String))
    (k v key : String) (h : k ≠ key) :
    getHeader (acc ++ [(k, v)]) key = getHeader acc key := by
  rw [getHeader_append]
  cases hacc : getHeader acc key <;> simp [getHeader_cons, h, getHeader]

/-- Updating a key other than `key` leaves `key`'s binding unchanged. -/
theorem getHeader_setField_ne (acc : List (String × String))
    (k v key : String) (h : k ≠ key) :
    getHeader (setField acc k v) key = getHeader acc key := by
  unfold setField
  split
  · exact getHeader_map_update k v key h acc
  · exact getHeader_append_single_ne acc k v key h

theorem getHeader_fold_no_key (key : String) :
    ∀ (hs : List (String × String)) (acc : List (String × String)),
      (∀ p ∈ hs, p.1 ≠ key) →
      getHeader (hs.foldl (fun a kv => setField a kv.1 kv.2) acc) key
        = getHeader acc key
  | [], _, _ => rfl
  | kv :: rest, acc, h => by
      rw [List.foldl_cons,
        getHeader_fold_no_key key rest _
          (fun p hp => h p (List.mem_cons_of_mem _ hp)),
        getHeader_setField_ne acc kv.1 kv.2 key (h kv (List.mem_cons_self _ _))]

/-- When the caller supplies no `Content-Type`, the default entry of the
spread survives. -/
theorem mergeHeaders_default_kept (hs : List (String × String))
    (h : ∀ p ∈ hs, p.1 ≠ "Content-Type") :
    getHeader (mergeHeaders hs) "Content-Type" = some "application/json" := by
  unfold mergeHeaders
  rw [getHeader_fold_no_key _ hs _ h]
  rfl

/-! ### Claims -/

/-- Claim C1 is false as stated: a non-success response whose valid JSON
body carries `detail: ""` (a falsy value) raises `HTTP 404`, not the
`detail` value `""`, because `error.detail || ...` takes the fallback on
every falsy `detail`. -/
theorem c1_counterexample :
    (EchosenseAPI.fetchImpl EchosenseAPI.mkDefault "/api/calls/x"
        FetchOptions.defaultOpts
        (HttpOutcome.response
          ⟨404, some (Json.obj [("detail", Json.str "")]), ""⟩)).result
      = FetchResult.failure "HTTP 404"
    ∧ ("HTTP 404" : String) ≠ "" :=
  ⟨rfl, by decide⟩

/-- Claim C1, amended: for every non-success HTTP response whose body is
valid JSON on which the `detail` access yields a truthy value, the error
raised by the generic request helper has as message that value's string
form (for a non-empty string `detail`, the string itself). -/
theorem c1_truthy_detail (c : ClientState) (endpoint : String)
    (opts : FetchOptions) (resp : Response) (j d : Json)
    (hok : resp.ok = false) (hjson : resp.json = some j)
    (hdetail : getDetail j = AccessResult.ok (some d))
    (htruthy : d.truthy = true) :
    (EchosenseAPI.fetchImpl c endpoint opts (HttpOutcome.response resp)).result
      = FetchResult.failure d.toJSString := by
  rw [fetchImpl_result]
  simp [fetchAttempt, handleResponseCore, hok, hjson, hdetail, htruthy]

/-- Witness for C1's amended theorem at the spec's own scenario: a 404
whose body is `\x7b"detail": "Call not found"\x7d`. -/
theorem c1_truthy_detail_witness :
    (EchosenseAPI.fetchImpl EchosenseAPI.mkDefault "/api/calls/abc123"
        FetchOptions.defaultOpts
        (HttpOutcome.response
          ⟨404, some (Json.obj [("detail", Json.str "Call not found")]),
            ""⟩)).result
      = FetchResult.failure ((Json.str "Call not found").toJSString) :=
  c1_truthy_detail EchosenseAPI.mkDefault "/api/calls/abc123"
    FetchOptions.defaultOpts
    ⟨404, some (Json.obj [("detail", Json.str "Call not found")]), ""⟩
    (Json.obj [("detail", Json.str "Call not found")])
    (Json.str "Call not found") rfl rfl rfl rfl

/-- Claim C2 is false as stated: a non-success response whose body is not
valid JSON raises `Unknown error` (the substituted fallback object's
`detail`), not `HTTP 500`. -/
theorem c2_counterexample :
    (EchosenseAPI.fetchImpl EchosenseAPI.mkDefault "/api/calls/x"
        FetchOptions.defaultOpts
        (HttpOutcome.response ⟨500, none, "Unexpected token"⟩)).result
      = FetchResult.failure "Unknown error"
    ∧ ("Unknown error" : String) ≠ "HTTP 500" :=
  ⟨rfl, by decide⟩

/-- Claim C2, amended: on a non-success response, an unparseable body
raises `Unknown error`, while a valid JSON object body without a `detail`
field raises `HTTP <status>`. -/
theorem c2_error_fallbacks (c : ClientState) (endpoint : String)
    (opts : FetchOptions) (resp : Response) (hok : resp.ok = false) :
    (resp.json = none →
      (EchosenseAPI.fetchImpl c endpoint opts
          (HttpOutcome.response resp)).result
        = FetchResult.failure "Unknown error")
    ∧ (∀ fields, resp.json = some (Json.obj fields) →
        lookupField fields "detail" = none →
        (EchosenseAPI.fetchImpl c endpoint opts
            (HttpOutcome.response resp)).result
          = FetchResult.failure ("HTTP " ++ toString resp.status)) := by
  constructor
  · intro hjson
    rw [fetchImpl_result]
    simp [fetchAttempt, handleResponseCore, hok, hjson, getDetail,
      lookupField, Json.truthy, Json.toJSString]
  · intro fields hjson hdetail
    rw [fetchImpl_result]
    simp [fetchAttempt, handleResponseCore, hok, hjson, getDetail, hdetail]

/-- Witness for C2's amended theorem: a 404 whose body is the JSON object
`\x7b\x7d` raises `HTTP 404`. -/
theorem c2_error_fallbacks_witness :
    (EchosenseAPI.fetchImpl EchosenseAPI.mkDefault "/api/calls/x"
        FetchOptions.defaultOpts
        (HttpOutcome.response ⟨404, some (Json.obj []), ""⟩)).result
      = FetchResult.failure ("HTTP " ++ toString (404 : Nat)) :=
  (c2_error_fallbacks EchosenseAPI.mkDefault "/api/calls/x"
      FetchOptions.defaultOpts ⟨404, some (Json.obj []), ""⟩ rfl).2
    [] rfl rfl

/-- Claim C3: on a success (2xx) response whose body is valid JSON, the
generic helper — and the separately implemented upload operation — return
the parsed body unchanged. -/
theorem c3_success_body_verbatim (c : ClientState) (endpoint file : String)
    (opts : FetchOptions) (resp : Response) (j : Json)
    (hok : resp.ok = true) (hjson : resp.json = some j) :
    (EchosenseAPI.fetchImpl c endpoint opts (HttpOutcome.response resp)).result
      = FetchResult.success j
    ∧ (EchosenseAPI.uploadAudio c file (HttpOutcome.response resp)).result
      = FetchResult.success j := by
  rw [fetchImpl_result, uploadAudio_result]
  constructor <;> simp [fetchAttempt, uploadAttempt, handleResponseCore, hok, hjson]

/-- Witness for C3 at a concrete 200 response with body
`\x7b"status": "done"\x7d`. -/
theorem c3_success_body_verbatim_witness :
    (EchosenseAPI.fetchImpl EchosenseAPI.mkDefault "/api/processing/status/a"
        FetchOptions.defaultOpts
        (HttpOutcome.response
          ⟨200, some (Json.obj [("status", Json.str "done")]), ""⟩)).result
      = FetchResult.success (Json.obj [("status", Json.str "done")])
    ∧ (EchosenseAPI.uploadAudio EchosenseAPI.mkDefault "rec.wav"
        (HttpOutcome.response
          ⟨200, some (Json.obj [("status", Json.str "done")]), ""⟩)).result
      = FetchResult.success (Json.obj [("status", Json.str "done")]) :=
  c3_success_body_verbatim EchosenseAPI.mkDefault "/api/processing/status/a"
    "rec.wav" FetchOptions.defaultOpts
    ⟨200, some (Json.obj [("status", Json.str "done")]), ""⟩
    (Json.obj [("status", Json.str "done")]) rfl rfl

/-- Claim C4 is false as stated: on a non-success response with an
unparseable body, the generic helper raises `Unknown error` but
`uploadAudio` raises `Upload failed` — the two fallback messages differ. -/
theorem c4_counterexample :
    (EchosenseAPI.uploadAudio EchosenseAPI.mkDefault "rec.wav"
        (HttpOutcome.response ⟨500, none, "Unexpected token"⟩)).result
      = FetchResult.failure "Upload failed"
    ∧ (EchosenseAPI.fetchImpl EchosenseAPI.mkDefault "/api/upload/audio"
        FetchOptions.defaultOpts
        (HttpOutcome.response ⟨500, none, "Unexpected token"⟩)).result
      = FetchResult.failure "Unknown error"
    ∧ ("Upload failed" : String) ≠ "Unknown error" :=
  ⟨rfl, rfl, by decide⟩

/-- Claim C4, amended: `uploadAudio` produces exactly the generic helper's
value or error for every outcome except a non-success response whose body
fails to parse; there the generic helper substitutes `Unknown error` while
`uploadAudio` substitutes `Upload failed`. -/
theorem c4_upload_refines_fetch (c : ClientState) (file endpoint : String)
    (opts : FetchOptions) (outcome : HttpOutcome) :
    ((∀ resp, outcome = HttpOutcome.response resp → resp.ok = false →
        resp.json ≠ none) →
      (EchosenseAPI.uploadAudio c file outcome).result
        = (EchosenseAPI.fetchImpl c endpoint opts outcome).result)
    ∧ ∀ resp, outcome = HttpOutcome.response resp → resp.ok = false →
        resp.json = none →
        (EchosenseAPI.uploadAudio c file outcome).result
          = FetchResult.failure "Upload failed"
        ∧ (EchosenseAPI.fetchImpl c endpoint opts outcome).result
          = FetchResult.failure "Unknown error" := by
  rw [fetchImpl_result, uploadAudio_result]
  constructor
  · intro h
    cases outcome with
    | networkError msg => rfl
    | response resp =>
        unfold uploadAttempt fetchAttempt
        apply handleResponseCore_congr
        cases hok : resp.ok with
        | true => exact Or.inl rfl
        | false => exact Or.inr (h resp rfl hok)
  · intro resp houtcome hok hjson
    subst houtcome
    constructor <;>
      simp [uploadAttempt, fetchAttempt, handleResponseCore, hok, hjson,
        getDetail, lookupField, Json.truthy, Json.toJSString]

/-- Witness for C4's amended theorem: on a thrown network error, the two
operations raise the same message. -/
theorem c4_upload_refines_fetch_witness :
    (EchosenseAPI.uploadAudio EchosenseAPI.mkDefault "rec.wav"
        (HttpOutcome.networkError "Failed to fetch")).result
      = (EchosenseAPI.fetchImpl EchosenseAPI.mkDefault "/api/upload/audio"
          FetchOptions.defaultOpts
          (HttpOutcome.networkError "Failed to fetch")).result :=
  (c4_upload_refines_fetch EchosenseAPI.mkDefault "rec.wav"
      "/api/upload/audio" FetchOptions.defaultOpts
      (HttpOutcome.networkError "Failed to fetch")).1
    (fun _ h => HttpOutcome.noConfusion h)

/-- Claim C5: `uploadAudio` issues exactly one request, a POST to
`baseUrl + /api/upload/audio`, whose body is a multipart form with the
single field `file` holding the file, and which carries no
`Content-Type` header at all (in particular not `application/json`). -/
theorem c5_upload_request (c : ClientState) (file : String)
    (outcome : HttpOutcome) :
    (EchosenseAPI.uploadAudio c file outcome).requests.length = 1
    ∧ ∀ req ∈ (EchosenseAPI.uploadAudio c file outcome).requests,
        req.url = c.baseUrl ++ "/api/upload/audio"
        ∧ req.method = "POST"
        ∧ req.body = RequestBody.multipart [("file", file)]
        ∧ getHeader req.headers "Content-Type" = none := by
  simp only [uploadAudio_requests]
  refine ⟨rfl, ?_⟩
  intro req hreq
  rw [List.mem_singleton] at hreq
  subst hreq
  exact ⟨rfl, rfl, rfl, rfl⟩

/-- Witness for C5 at a concrete client and file. -/
theorem c5_upload_request_witness :
    (⟨"http://localhost:8000" ++ "/api/upload/audio", "POST", [],
        RequestBody.multipart [("file", "rec.wav")]⟩ : Request).method
      = "POST" :=
  (((c5_upload_request EchosenseAPI.mkDefault "rec.wav"
        (HttpOutcome.networkError "down")).2
      ⟨"http://localhost:8000" ++ "/api/upload/audio", "POST", [],
        RequestBody.multipart [("file", "rec.wav")]⟩
      (by rw [uploadAudio_requests]; exact List.mem_singleton.mpr rfl)).2).1

/-- Claim C6 is false as stated: a caller-supplied `Content-Type` header
overrides the default, because `options.headers` is spread after the
default entry — the generic helper then issues the caller's value. -/
theorem c6_counterexample :
    (EchosenseAPI.fetchImpl EchosenseAPI.mkDefault "/api/calls/x"
        ⟨"GET", [("Content-Type", "text/plain")]⟩
        (HttpOutcome.networkError "offline")).requests
      = [⟨"http://localhost:8000" ++ "/api/calls/x", "GET",
          [("Content-Type", "text/plain")], RequestBody.noBody⟩]
    ∧ ("text/plain" : String) ≠ "application/json" :=
  ⟨by rw [fetchImpl_requests]; rfl, by decide⟩

/-- Claim C6, amended: the helper's headers are the default
`Content-Type: application/json` entry with the caller's headers spread
over it, so a caller-supplied `Content-Type` overrides the default, and
when no caller header uses that key the default survives; every non-upload
public operation supplies no headers, so its one request carries
`Content-Type: application/json`. -/
theorem c6_headers (c : ClientState) (callId : String) (n : Int)
    (outcome : HttpOutcome) (v : String) (hs : List (String × String))
    (hno : ∀ p ∈ hs, p.1 ≠ "Content-Type") :
    getHeader (mergeHeaders [("Content-Type", v)]) "Content-Type" = some v
    ∧ getHeader (mergeHeaders hs) "Content-Type" = some "application/json"
    ∧ ∀ req ∈ nonUploadRequests c callId n outcome,
        getHeader req.headers "Content-Type" = some "application/json" := by
  refine ⟨rfl, mergeHeaders_default_kept hs hno, ?_⟩
  intro req hreq
  simp only [nonUploadRequests, EchosenseAPI.getProcessingStatus,
    EchosenseAPI.getTranscript, EchosenseAPI.getQualityScore,
    EchosenseAPI.getComplianceFlags, EchosenseAPI.getFullReport,
    EchosenseAPI.getDashboardStats, EchosenseAPI.getRecentCalls,
    EchosenseAPI.getQualityTrends, EchosenseAPI.deleteCall,
    EchosenseAPI.getComplianceSummary, fetchImpl_requests,
    List.mem_append, List.mem_singleton] at hreq
  rcases hreq with
    ((((((((h | h) | h) | h) | h) | h) | h) | h) | h) | h <;>
    subst h <;> rfl

/-- Witness for C6's amended theorem: `text/plain` supplied by the caller
is what the merged headers carry. -/
theorem c6_headers_witness :
    getHeader (mergeHeaders [("Content-Type", "text/plain")]) "Content-Type"
      = some "text/plain" :=
  (c6_headers EchosenseAPI.mkDefault "a" 7 (HttpOutcome.networkError "down")
      "text/plain" []
      (fun p hp => absurd hp (List.not_mem_nil p))).1

/-- Claim C7: each query-parameterized read called with its parameter
omitted uses the documented default — dashboard `days=7`, recent-calls
`limit=10`, quality-trends `days=30`, compliance-summary `days=7` — as a
GET with the JSON content type, and returns a successfully parsed body
verbatim. -/
theorem c7_query_defaults (c : ClientState) (outcome : HttpOutcome)
    (resp : Response) (j : Json) (hok : resp.ok = true)
    (hjson : resp.json = some j) :
    (EchosenseAPI.getDashboardStatsNoArg c outcome).requests
      = [⟨c.baseUrl ++ "/api/analytics/dashboard?days=7", "GET",
          [("Content-Type", "application/json")], RequestBody.noBody⟩]
    ∧ (EchosenseAPI.getRecentCallsNoArg c outcome).requests
      = [⟨c.baseUrl ++ "/api/analytics/recent-calls?limit=10", "GET",
          [("Content-Type", "application/json")], RequestBody.noBody⟩]
    ∧ (EchosenseAPI.getQualityTrendsNoArg c outcome).requests
      = [⟨c.baseUrl ++ "/api/analytics/quality-trends?days=30", "GET",
          [("Content-Type", "application/json")], RequestBody.noBody⟩]
    ∧ (EchosenseAPI.getComplianceSummaryNoArg c outcome).requests
      = [⟨c.baseUrl ++ "/api/analytics/compliance-summary?days=7", "GET",
          [("Content-Type", "application/json")], RequestBody.noBody⟩]
    ∧ (EchosenseAPI.getDashboardStatsNoArg c (HttpOutcome.response resp)).result
      = FetchResult.success j := by
  refine ⟨?_, ?_, ?_, ?_, ?_⟩
  · rw [EchosenseAPI.getDashboardStatsNoArg.eq_def,
      EchosenseAPI.getDashboardStats.eq_def, fetchImpl_requests]
    rfl
  · rw [EchosenseAPI.getRecentCallsNoArg.eq_def,
      EchosenseAPI.getRecentCalls.eq_def, fetchImpl_requests]
    rfl
  · rw [EchosenseAPI.getQualityTrendsNoArg.eq_def,
      EchosenseAPI.getQualityTrends.eq_def, fetchImpl_requests]
    rfl
  · rw [EchosenseAPI.getComplianceSummaryNoArg.eq_def,
      EchosenseAPI.getComplianceSummary.eq_def, fetchImpl_requests]
    rfl
  · rw [EchosenseAPI.getDashboardStatsNoArg.eq_def,
      EchosenseAPI.getDashboardStats.eq_def, fetchImpl_result]
    simp [fetchAttempt, handleResponseCore, hok, hjson]

/-- Witness for C7 at a concrete 200 response with a JSON body. -/
theorem c7_query_defaults_witness :
    (EchosenseAPI.getDashboardStatsNoArg EchosenseAPI.mkDefault
        (HttpOutcome.response
          ⟨200, some (Json.obj [("total_calls", Json.num 3)]), ""⟩)).result
      = FetchResult.success (Json.obj [("total_calls", Json.num 3)]) :=
  (c7_query_defaults EchosenseAPI.mkDefault
      (HttpOutcome.response
        ⟨200, some (Json.obj [("total_calls", Json.num 3)]), ""⟩)
      ⟨200, some (Json.obj [("total_calls", Json.num 3)]), ""⟩
      (Json.obj [("total_calls", Json.num 3)]) rfl rfl).2.2.2.2

/-- Claim C8: each invocation hands exactly one request to the transport;
the value or error an operation produces is exactly what its `try` body
produced (the `catch` only logs — tagged with the endpoint — and rethrows
the same error, with no retry, recovery, or fallback); a thrown network
error surfaces with its own message. -/
theorem c8_no_retry_no_suppression (c : ClientState)
    (endpoint file : String) (opts : FetchOptions) (outcome : HttpOutcome)
    (msg m : String) :
    (EchosenseAPI.fetchImpl c endpoint opts outcome).requests.length = 1
    ∧ (EchosenseAPI.uploadAudio c file outcome).requests.length = 1
    ∧ (EchosenseAPI.fetchImpl c endpoint opts outcome).result
        = fetchAttempt outcome
    ∧ (EchosenseAPI.uploadAudio c file outcome).result = uploadAttempt outcome
    ∧ (EchosenseAPI.fetchImpl c endpoint opts
          (HttpOutcome.networkError msg)).result
        = FetchResult.failure msg
    ∧ (fetchAttempt outcome = FetchResult.failure m →
        (EchosenseAPI.fetchImpl c endpoint opts outcome).log
          = ["API Error [" ++ endpoint ++ "]: " ++ m]
        ∧ (EchosenseAPI.fetchImpl c endpoint opts outcome).result
          = FetchResult.failure m) := by
  refine ⟨?_, ?_, fetchImpl_result c endpoint opts outcome,
    uploadAudio_result c file outcome,
    fetchImpl_result c endpoint opts (HttpOutcome.networkError msg), ?_⟩
  · rw [fetchImpl_requests]
    rfl
  · rw [uploadAudio_requests]
    rfl
  · intro h
    exact ⟨fetchImpl_log c endpoint opts outcome m h,
      (fetchImpl_result c endpoint opts outcome).trans h⟩

/-- Witness for C8 at a thrown network error. -/
theorem c8_no_retry_no_suppression_witness :
    (EchosenseAPI.fetchImpl EchosenseAPI.mkDefault "/api/calls/x"
        FetchOptions.defaultOpts (HttpOutcome.networkError "Failed to fetch")).log
      = ["API Error [" ++ "/api/calls/x" ++ "]: " ++ "Failed to fetch"]
    ∧ (EchosenseAPI.fetchImpl EchosenseAPI.mkDefault "/api/calls/x"
        FetchOptions.defaultOpts
        (HttpOutcome.networkError "Failed to fetch")).result
      = FetchResult.failure "Failed to fetch" :=
  (c8_no_retry_no_suppression EchosenseAPI.mkDefault "/api/calls/x" "rec.wav"
      FetchOptions.defaultOpts (HttpOutcome.networkError "Failed to fetch")
      "Failed to fetch" "Failed to fetch").2.2.2.2.2 rfl

/-- Claim C9: the client's state is exactly its base URL — two client
states with the same base URL are the same state — the no-argument
constructor stores `http://localhost:8000`, and every request any
operation issues has a URL extending the construction-time base URL.  (No
operation of the embedding takes or returns a modified state: the source
never assigns to `this.baseUrl` outside the constructor.) -/
theorem c9_base_url_only_state (s t : ClientState) (callId file : String)
    (n : Int) (outcome : HttpOutcome) (hstate : s.baseUrl = t.baseUrl) :
    s = t
    ∧ EchosenseAPI.mkDefault.baseUrl = "http://localhost:8000"
    ∧ ∀ req ∈ allRequests s callId file n outcome,
        ∃ rest, req.url = s.baseUrl ++ rest := by
  refine ⟨?_, rfl, ?_⟩
  · cases s
    cases t
    simpa using hstate
  · intro req hreq
    simp only [allRequests, nonUploadRequests, EchosenseAPI.getProcessingStatus,
      EchosenseAPI.getTranscript, EchosenseAPI.getQualityScore,
      EchosenseAPI.getComplianceFlags, EchosenseAPI.getFullReport,
      EchosenseAPI.getDashboardStats, EchosenseAPI.getRecentCalls,
      EchosenseAPI.getQualityTrends, EchosenseAPI.deleteCall,
      EchosenseAPI.getComplianceSummary, fetchImpl_requests,
      uploadAudio_requests, List.mem_append, List.mem_singleton] at hreq
    rcases hreq with
      (((((((((h | h) | h) | h) | h) | h) | h) | h) | h) | h) | h <;>
      subst h <;> exact ⟨_, rfl⟩

/-- Witness for C9 at two equal concrete states. -/
theorem c9_base_url_only_state_witness :
    EchosenseAPI.mk "http://localhost:8000"
      = EchosenseAPI.mk "http://localhost:8000" :=
  (c9_base_url_only_state (EchosenseAPI.mk "http://localhost:8000")
      (EchosenseAPI.mk "http://localhost:8000") "abc123" "rec.wav" 7
      (HttpOutcome.networkError "down") rfl).1

/-- Claim C10: request URLs are the verbatim concatenation of the base
URL, the path template, and the argument's string form — no encoding,
escaping, or validation; a call ID holding `/`, `?`, or `#` lands in the
URL unchanged. -/
theorem c10_verbatim_urls (c : ClientState) (callId : String)
    (days lim : Int) (outcome : HttpOutcome) :
    (EchosenseAPI.getProcessingStatus c callId outcome).requests.map
        Request.url
      = [c.baseUrl ++ ("/api/processing/status/" ++ callId)]
    ∧ (EchosenseAPI.deleteCall c callId outcome).requests.map Request.url
      = [c.baseUrl ++ ("/api/calls/" ++ callId)]
    ∧ (EchosenseAPI.getDashboardStats c days outcome).requests.map Request.url
      = [c.baseUrl ++ ("/api/analytics/dashboard?days=" ++ toString days)]
    ∧ (EchosenseAPI.getRecentCalls c lim outcome).requests.map Request.url
      = [c.baseUrl ++ ("/api/analytics/recent-calls?limit=" ++ toString lim)]
    ∧ (EchosenseAPI.getProcessingStatus c "a/b?c#d" outcome).requests.map
        Request.url
      = [c.baseUrl ++ "/api/processing/status/a/b?c#d"] := by
  refine ⟨?_, ?_, ?_, ?_, ?_⟩
  all_goals
    simp only [EchosenseAPI.getProcessingStatus, EchosenseAPI.deleteCall,
      EchosenseAPI.getDashboardStats, EchosenseAPI.getRecentCalls,
      fetchImpl_requests, List.map_cons, List.map_nil]
  all_goals rfl

end Echosense
